import Mathlib

/-!
Verification development for the Duo-EM3 dual-tenant energy monitor.

The definitions below are a shallow embedding of the core of the code base:

* the Modbus frame codec of `src/pzem_handler.py` (`crc16_modbus`,
  `build_read_command`, `read_response`),
* the per-meter metering engine (`read_tenant_a`, `reset_daily_counters`),
* the plausibility validator of `src/main.py` (`_validate_data`),
* the scheduler / recovery state machine of `src/main.py`
  (`_read_tenant_data`, `_should_restart_handler`, `_restart_pzem_handler`,
  `_initialize_pzem`, `_should_reset_daily_counters`, `run`).

Python floats are modelled as exact rationals (`ℚ`), byte values and
registers as `ℕ`, and wall-clock timestamps as `ℤ` (Python int seconds).
Fallible parsing returns an explicit result type.  Stateful methods are
modelled as explicit state-passing functions over the corresponding record
of instance fields.
-/

set_option maxRecDepth 8000

/-! ## Frame codec (src/pzem_handler.py) -/

/-- One inner iteration of the CRC loop in `PZEMHandler.crc16_modbus`:
`if crc & 0x0001: crc = (crc >> 1) ^ 0xA001 else: crc >>= 1`. -/
def crcRound (crc : ℕ) : ℕ :=
  if crc &&& 0x0001 = 1 then (crc >>> 1) ^^^ 0xA001 else crc >>> 1

/-- The eight inner iterations (`for _ in range(8)`) of `crc16_modbus`. -/
def crcRounds8 (x : ℕ) : ℕ :=
  crcRound (crcRound (crcRound (crcRound (crcRound (crcRound (crcRound (crcRound x)))))))

/-- Processing of one byte by `crc16_modbus`: `crc ^= byte` followed by the
eight shift/xor rounds. -/
def crcByte (crc b : ℕ) : ℕ := crcRounds8 (crc ^^^ b)

/-- `PZEMHandler.crc16_modbus`: Modbus RTU CRC16, polynomial 0xA001,
initial value 0xFFFF, one pass per byte. -/
def crc16_modbus (data : List ℕ) : ℕ := data.foldl crcByte 0xFFFF

/-- `PZEMHandler.build_read_command`: `[address, 0x04, 0x00, 0x00, 0x00, 0x0A]`
with the CRC16 appended low byte then high byte. -/
def build_read_command (address : ℕ) : List ℕ :=
  let command : List ℕ := [address, 0x04, 0x00, 0x00, 0x00, 0x0A]
  let crc := crc16_modbus command
  command ++ [crc &&& 0xFF, (crc >>> 8) &&& 0xFF]

/-- The dictionary returned by a successful `PZEMHandler.read_response`. -/
structure Reading where
  voltage : ℚ
  current : ℚ
  power : ℚ
  energy : ℚ
  frequency : ℚ
  power_factor : ℚ
  timestamp : ℤ
  deriving DecidableEq

/-- The distinct rejection branches of `PZEMHandler.read_response` (each one
is a separate `return None` with its own diagnostic message in the source). -/
inductive FrameError where
  | incomplete
  | addressMismatch
  | deviceException (code : ℕ)
  | functionMismatch
  | lengthMismatch
  | crcMismatch
  deriving DecidableEq

/-- Result of `PZEMHandler.read_response`: a decoded `Reading` or the
rejection branch taken. -/
inductive ParseResult where
  | ok (r : Reading)
  | error (e : FrameError)
  deriving DecidableEq

/-- `struct.unpack('>H', data_bytes[i:i+2])` applied to consecutive byte
pairs: each register is the big-endian combination `(hi << 8) | lo`. -/
def parseRegisters : List ℕ → List ℕ
  | hi :: lo :: rest => ((hi <<< 8) ||| lo) :: parseRegisters rest
  | _ => []

/-- `PZEMHandler.read_response`, applied to the bytes collected within the
receive window.  `now` is the `utime.time()` value used for the
`timestamp` field of the result. -/
def read_response (response : List ℕ) (address : ℕ) (now : ℤ) : ParseResult :=
  if response.length < 25 then .error .incomplete
  else if response.getD 0 0 ≠ address then .error .addressMismatch
  else if response.getD 1 0 ≠ 0x04 then
    (if response.getD 1 0 = 0x84 then .error (.deviceException (response.getD 2 0))
     else .error .functionMismatch)
  else if response.getD 2 0 ≠ 20 then .error .lengthMismatch
  else
    -- data_for_crc = response[:-2]; received = response[-2] | (response[-1] << 8)
    let data_for_crc := response.take (response.length - 2)
    let calculated_crc := crc16_modbus data_for_crc
    let received_crc := response.getD (response.length - 2) 0 |||
      (response.getD (response.length - 1) 0 <<< 8)
    if calculated_crc ≠ received_crc then .error .crcMismatch
    else
      -- data_bytes = response[3:23], ten big-endian 16-bit registers
      let registers := parseRegisters ((response.drop 3).take 20)
      let voltage : ℚ := (registers.getD 0 0 : ℚ) / 10
      let current_raw := (registers.getD 2 0 <<< 16) ||| registers.getD 1 0
      let current : ℚ := (current_raw : ℚ) / 1000
      let power_raw := (registers.getD 4 0 <<< 16) ||| registers.getD 3 0
      let power : ℚ := (power_raw : ℚ) / 10
      let energy_raw := (registers.getD 6 0 <<< 16) ||| registers.getD 5 0
      let energy : ℚ := (energy_raw : ℚ)
      let frequency : ℚ := (registers.getD 7 0 : ℚ) / 10
      let power_factor_raw : ℚ := (registers.getD 8 0 : ℚ) / 100
      let power_factor : ℚ :=
        if current = 0 ∨ power = 0 then 0 else min (max power_factor_raw 0) 1
      .ok { voltage := voltage, current := current, power := power, energy := energy,
            frequency := frequency, power_factor := power_factor, timestamp := now }

/-! ## CRC facts used by claim C8 -/

theorem crcRound_lt (x : ℕ) (h : x < 65536) : crcRound x < 65536 := by
  have hx : x >>> 1 < 65536 := by
    rw [Nat.shiftRight_eq_div_pow]
    exact lt_of_le_of_lt (Nat.div_le_self _ _) h
  unfold crcRound
  split
  · have h1 : x >>> 1 < 2 ^ 16 := by norm_num at hx ⊢; exact hx
    have h2 : (0xA001 : ℕ) < 2 ^ 16 := by norm_num
    have := Nat.xor_lt_two_pow h1 h2
    norm_num at this ⊢
    exact this
  · exact hx

theorem crcRounds8_lt (x : ℕ) (h : x < 65536) : crcRounds8 x < 65536 :=
  crcRound_lt _ (crcRound_lt _ (crcRound_lt _ (crcRound_lt _ (crcRound_lt _
    (crcRound_lt _ (crcRound_lt _ (crcRound_lt _ h)))))))

theorem crcByte_lt (c b : ℕ) (hc : c < 65536) (hb : b < 256) : crcByte c b < 65536 := by
  unfold crcByte
  apply crcRounds8_lt
  have h1 : c < 2 ^ 16 := by norm_num at hc ⊢; exact hc
  have h2 : b < 2 ^ 16 := by norm_num; omega
  have := Nat.xor_lt_two_pow h1 h2
  norm_num at this ⊢
  exact this

theorem foldl_crcByte_lt :
    ∀ (l : List ℕ) (c : ℕ), c < 65536 → (∀ b ∈ l, b < 256) → l.foldl crcByte c < 65536 := by
  intro l
  induction l with
  | nil => intro c hc _; simpa using hc
  | cons a t ih =>
      intro c hc hb
      simp only [List.foldl_cons]
      exact ih _ (crcByte_lt c a hc (hb a (by simp))) (fun b hbm => hb b (by simp [hbm]))

theorem crc16_modbus_lt (data : List ℕ) (h : ∀ b ∈ data, b < 256) :
    crc16_modbus data < 65536 :=
  foldl_crcByte_lt data 0xFFFF (by norm_num) h

theorem xor_and_255 (c : ℕ) : c ^^^ (c &&& 255) = (c >>> 8) <<< 8 := by
  apply Nat.eq_of_testBit_eq
  intro i
  have h255 : (255 : ℕ) = 2 ^ 8 - 1 := by norm_num
  simp only [Nat.testBit_xor, Nat.testBit_and, Nat.testBit_shiftLeft,
    Nat.testBit_shiftRight, h255, Nat.testBit_two_pow_sub_one]
  by_cases h : i < 8
  · simp [h, Nat.not_le.mpr h]
  · have h8 : 8 ≤ i := Nat.not_lt.mp h
    have hi : 8 + (i - 8) = i := by omega
    simp [h, h8, hi]

theorem crcRounds8_shift : ∀ h < 256, crcRounds8 (h <<< 8) = h := by decide

theorem crcByte_low_self : ∀ h < 256, crcByte h (h &&& 255) = 0 := by decide

theorem crcByte_append_zero (c : ℕ) (hc : c < 65536) :
    crcByte (crcByte c (c &&& 255)) ((c >>> 8) &&& 255) = 0 := by
  have h8 : c >>> 8 < 256 := by
    rw [Nat.shiftRight_eq_div_pow]
    exact Nat.div_lt_of_lt_mul (by norm_num; omega)
  have h1 : crcByte c (c &&& 255) = c >>> 8 := by
    unfold crcByte
    rw [xor_and_255]
    exact crcRounds8_shift _ h8
  rw [h1]
  exact crcByte_low_self _ h8

/-! ## Concrete frames for claims C1 and C4 -/

/-- The synthetic 25-byte response frame of claim C1: address 0x01,
function 0x04, byte count 20, the ten big-endian registers
`[2200, 1500, 0, 500, 0, 0, 0, 500, 0, 950]`, and the correct CRC16
(0x758C, appended low byte 140 then high byte 117). -/
def c1Frame : List ℕ :=
  [1, 4, 20,
   8, 152,  5, 220,  0, 0,  1, 244,  0, 0,  0, 0,  0, 0,  1, 244,  0, 0,  3, 182,
   140, 117]

/-- The reading that `read_response` actually produces from `c1Frame`. -/
def c1Actual : Reading :=
  { voltage := 220, current := 3 / 2, power := 50, energy := 0,
    frequency := 50, power_factor := 0, timestamp := 0 }

theorem read_response_c1Frame : read_response c1Frame 0x01 0 = ParseResult.ok c1Actual := by
  have h0 : ((8 : ℕ) <<< 8 ||| 152) = 2200 := by decide
  have h1 : ((5 : ℕ) <<< 8 ||| 220) = 1500 := by decide
  have h3 : ((1 : ℕ) <<< 8 ||| 244) = 500 := by decide
  simp +decide only [read_response, c1Frame]
  norm_num [parseRegisters, c1Actual, h0, h1, h3]

/-- A 26-byte collected sequence: the first 23 bytes of `c1Frame`, one extra
byte 0, then the CRC16 of those first 23 bytes (low byte 140, high 117). -/
def c4LongFrame : List ℕ :=
  [1, 4, 20,
   8, 152,  5, 220,  0, 0,  1, 244,  0, 0,  0, 0,  0, 0,  1, 244,  0, 0,  3, 182,
   0, 140, 117]

/-! ## Claim C1 -/

/-- **C1** (counterexample).  The claim expects `parseReadResponse` on the
synthetic frame built from registers `[2200,1500,0,500,0,0,0,500,0,950]` to
return powerFactor = 0.95; but register r8 of that list is 0 (950 is r9, the
unused alarm register), so the code computes `rawPF = 0/100 = 0` and the
clamp keeps it at 0: the decode succeeds with powerFactor = 0, not 0.95. -/
theorem c1_counterexample :
    read_response c1Frame 0x01 0 = ParseResult.ok c1Actual ∧
    c1Actual.power_factor = 0 ∧ (0 : ℚ) ≠ 95 / 100 := by
  refine ⟨read_response_c1Frame, by norm_num [c1Actual], by norm_num⟩

/-- **C1** (amended).  For the synthetic 25-byte response frame with correct
address, function code 0x04, byte count 20, and valid CRC whose ten
big-endian registers are `[2200,1500,0,500,0,0,0,500,0,950]`,
`parseReadResponse` succeeds and returns exactly the Reading
voltage = 220.0, current = 1.500, power = 50.0, deviceEnergyWh = 0,
frequency = 50.0, powerFactor = 0.0 (register r8 is 0, so r8/100 = 0),
computed by the field formulas voltage = r0/10, current = ((r2<<16)|r1)/1000,
power = ((r4<<16)|r3)/10, deviceEnergyWh = (r6<<16)|r5, frequency = r7/10,
powerFactor = r8/100 clamped to [0,1] and forced to 0 when current == 0 or
power == 0. -/
theorem c1_decode_deterministic :
    read_response c1Frame 0x01 0 =
      ParseResult.ok { voltage := 220, current := 3 / 2, power := 50, energy := 0,
                       frequency := 50, power_factor := 0, timestamp := 0 } :=
  read_response_c1Frame

/-! ## Claim C8 -/

/-- **C8**.  For every byte sequence, computing its Modbus CRC16 (polynomial
0xA001, initial value 0xFFFF), appending the CRC low byte then high byte, and
re-running `crc16` over the extended sequence yields 0; and
`build_read_command` appends the CRC exactly this way, so every built request
frame self-verifies. -/
theorem c8_crc_roundtrip :
    (∀ data : List ℕ, (∀ b ∈ data, b < 256) →
      crc16_modbus
        (data ++ [crc16_modbus data &&& 0xFF, (crc16_modbus data >>> 8) &&& 0xFF]) = 0) ∧
    (∀ address : ℕ, address < 256 → crc16_modbus (build_read_command address) = 0) := by
  have main : ∀ data : List ℕ, (∀ b ∈ data, b < 256) →
      crc16_modbus
        (data ++ [crc16_modbus data &&& 0xFF, (crc16_modbus data >>> 8) &&& 0xFF]) = 0 := by
    intro data hdata
    have hc : crc16_modbus data < 65536 := crc16_modbus_lt data hdata
    show (data ++ _).foldl crcByte 0xFFFF = 0
    rw [List.foldl_append]
    exact crcByte_append_zero _ hc
  refine ⟨main, ?_⟩
  intro address haddr
  have hb : ∀ b ∈ [address, 0x04, 0x00, 0x00, 0x00, 0x0A], b < 256 := by
    intro b hbm
    simp only [List.mem_cons, List.not_mem_nil, or_false] at hbm
    rcases hbm with h | h | h | h | h | h <;> omega
  exact main [address, 0x04, 0x00, 0x00, 0x00, 0x0A] hb

/-- **C8** (witness): the round-trip and the self-verification of a built
request frame at concrete inputs. -/
theorem c8_crc_roundtrip_witness :
    crc16_modbus
      ([1, 4, 0, 0, 0, 10] ++
        [crc16_modbus [1, 4, 0, 0, 0, 10] &&& 0xFF,
         (crc16_modbus [1, 4, 0, 0, 0, 10] >>> 8) &&& 0xFF]) = 0 ∧
    crc16_modbus (build_read_command 2) = 0 :=
  ⟨c8_crc_roundtrip.1 [1, 4, 0, 0, 0, 10] (by decide),
   c8_crc_roundtrip.2 2 (by norm_num)⟩

/-! ## Metering engine (src/pzem_handler.py, per meter) -/

/-- `ENERGY_RATE_GHS = 1.824` from `config.py`. -/
def ENERGY_RATE_GHS : ℚ := 1.824

/-- The per-meter instance fields of `PZEMHandler` for one tenant:
`energy_a`, `daily_energy_a`, `last_reading_a` (all initialised to zero in
`__init__`; `last_reading_a = 0` is the no-previous-sample sentinel). -/
structure MeterState where
  energy : ℚ
  daily_energy : ℚ
  last_reading : ℤ
  deriving DecidableEq

/-- The dictionary returned by `PZEMHandler.read_tenant_a`: the decoded
fields plus the accumulated `energy`, `daily_energy`, `daily_cost`. -/
structure EnrichedReading where
  voltage : ℚ
  current : ℚ
  power : ℚ
  energy : ℚ
  frequency : ℚ
  power_factor : ℚ
  timestamp : ℤ
  daily_energy : ℚ
  daily_cost : ℚ
  deriving DecidableEq

/-- `PZEMHandler.read_tenant_a` (identical code drives tenant B on the other
state fields).  `decoded` is the result of `read_response`
(`none` = any decode failure), `now` is `utime.time()`.  Returns the updated
per-meter state and the returned dictionary. -/
def read_tenant_a (st : MeterState) (decoded : Option Reading) (now : ℤ) :
    MeterState × EnrichedReading :=
  match decoded with
  | some data =>
      let st1 :=
        if st.last_reading > 0 then
          let time_diff := now - st.last_reading
          if 0 < time_diff ∧ time_diff ≤ 10 then
            let energy_increment := data.power * (time_diff : ℚ) / 3600 / 1000
            { st with energy := st.energy + energy_increment,
                      daily_energy := st.daily_energy + energy_increment }
          else st
        else st
      let st2 := { st1 with last_reading := now }
      (st2,
       { voltage := data.voltage, current := data.current, power := data.power,
         energy := st2.energy, frequency := data.frequency,
         power_factor := data.power_factor, timestamp := data.timestamp,
         daily_energy := st2.daily_energy,
         daily_cost := st2.daily_energy * ENERGY_RATE_GHS })
  | none =>
      (st,
       { voltage := 0, current := 0, power := 0, energy := st.energy,
         frequency := 0, power_factor := 0, timestamp := now,
         daily_energy := st.daily_energy,
         daily_cost := st.daily_energy * ENERGY_RATE_GHS })

/-- The effect of `PZEMHandler.reset_daily_counters` on one meter's state:
only the daily accumulator is zeroed. -/
def reset_daily_counters (st : MeterState) : MeterState :=
  { st with daily_energy := 0 }

/-- A full poll of one meter: decode the collected bytes, then run the
metering update of `read_tenant_a` (success and failure branch). -/
def poll_meter (st : MeterState) (response : List ℕ) (address : ℕ) (now : ℤ) :
    MeterState × EnrichedReading :=
  match read_response response address now with
  | .ok r => read_tenant_a st (some r) now
  | .error _ => read_tenant_a st none now

/-- A successful sample with power 1000 W (claim C2's scenario). -/
def sample1000 : Reading :=
  { voltage := 230, current := 5, power := 1000, energy := 0,
    frequency := 50, power_factor := 1, timestamp := 0 }

/-! ## Claim C2 -/

/-- **C2** (counterexample).  The claim asserts that samples of power = 1000 W
at t = 0 and again at t = 5 increase lifetime and daily energy each by
0.0013889 kWh (within 1e-6).  In the code the stored timestamp 0 is the
no-previous-sample sentinel (`if self.last_reading_a > 0`), so the sample at
t = 0 leaves the stored timestamp at 0 and the sample at t = 5 is again
treated as having no predecessor: both accumulators stay exactly 0, and
0 is not within 1e-6 of 0.0013889. -/
theorem c2_counterexample :
    ((read_tenant_a (read_tenant_a ⟨0, 0, 0⟩ (some sample1000) 0).1
        (some sample1000) 5).1.energy = 0 ∧
     (read_tenant_a (read_tenant_a ⟨0, 0, 0⟩ (some sample1000) 0).1
        (some sample1000) 5).1.daily_energy = 0) ∧
    ¬ |(0 : ℚ) - 13889 / 10000000| ≤ 1 / 1000000 := by
  constructor
  · constructor <;> norm_num [read_tenant_a]
  · rw [zero_sub, abs_neg, abs_of_nonneg (by norm_num)]
    norm_num

/-- **C2** (amended).  For every successful reading at time `nowSec`: if the
stored last-sample timestamp is positive (timestamp 0 is the code's
no-previous-sample sentinel), the engine computes
`delta = nowSec - lastSampleTimeSec` and adds
`incrementKWh = power * delta / 3600 / 1000` to both the lifetime and the
daily accumulator if and only if `0 < delta ≤ 10`, and `lastSampleTimeSec`
is updated to `nowSec` unconditionally.  In particular, samples of
power = 1000 W at t = 1 and again at t = 6 increase lifetime and daily
energy each by 0.0013889 kWh (within 1e-6), and two samples 15 s apart
never change the accumulators. -/
theorem c2_energy_integration :
    (∀ (st : MeterState) (data : Reading) (now : ℤ),
      st.last_reading > 0 →
      ((0 < now - st.last_reading ∧ now - st.last_reading ≤ 10 →
          (read_tenant_a st (some data) now).1.energy
            = st.energy + data.power * ((now - st.last_reading : ℤ) : ℚ) / 3600 / 1000 ∧
          (read_tenant_a st (some data) now).1.daily_energy
            = st.daily_energy + data.power * ((now - st.last_reading : ℤ) : ℚ) / 3600 / 1000) ∧
       (¬ (0 < now - st.last_reading ∧ now - st.last_reading ≤ 10) →
          (read_tenant_a st (some data) now).1.energy = st.energy ∧
          (read_tenant_a st (some data) now).1.daily_energy = st.daily_energy))) ∧
    (∀ (st : MeterState) (data : Reading) (now : ℤ),
      (read_tenant_a st (some data) now).1.last_reading = now) ∧
    (|(read_tenant_a (read_tenant_a ⟨0, 0, 0⟩ (some sample1000) 1).1
         (some sample1000) 6).1.energy - 13889 / 10000000| ≤ 1 / 1000000 ∧
     |(read_tenant_a (read_tenant_a ⟨0, 0, 0⟩ (some sample1000) 1).1
         (some sample1000) 6).1.daily_energy - 13889 / 10000000| ≤ 1 / 1000000) ∧
    (∀ (st : MeterState) (data : Reading) (now : ℤ),
      now - st.last_reading = 15 →
      (read_tenant_a st (some data) now).1.energy = st.energy ∧
      (read_tenant_a st (some data) now).1.daily_energy = st.daily_energy) := by
  refine ⟨?_, ?_, ?_, ?_⟩
  · intro st data now hlast
    constructor
    · intro hdiff
      simp only [read_tenant_a, if_pos hlast, if_pos hdiff]
      exact ⟨trivial, trivial⟩
    · intro hdiff
      simp only [read_tenant_a, if_pos hlast, if_neg hdiff]
      exact ⟨trivial, trivial⟩
  · intro st data now
    simp only [read_tenant_a]
  · have h : (read_tenant_a (read_tenant_a ⟨0, 0, 0⟩ (some sample1000) 1).1
        (some sample1000) 6).1 = ⟨1 / 720, 1 / 720, 6⟩ := by
      norm_num [read_tenant_a, sample1000]
    rw [h]
    constructor <;>
      · show |(1 / 720 - 13889 / 10000000 : ℚ)| ≤ 1 / 1000000
        rw [abs_of_nonpos (by norm_num)]
        norm_num
  · intro st data now hdiff
    by_cases hlast : st.last_reading > 0
    · have hnot : ¬ (0 < now - st.last_reading ∧ now - st.last_reading ≤ 10) := by omega
      simp only [read_tenant_a, if_pos hlast, if_neg hnot]
      exact ⟨trivial, trivial⟩
    · simp only [read_tenant_a, if_neg hlast]
      exact ⟨trivial, trivial⟩

/-- **C2** (witness): the integration equation at a concrete 5-second step
from a positive stored timestamp, and the no-integration of a 15-second
gap, both obtained from `c2_energy_integration`. -/
theorem c2_energy_integration_witness :
    (read_tenant_a (⟨0, 0, 1⟩ : MeterState) (some sample1000) 6).1.energy = 1 / 720 ∧
    (read_tenant_a (⟨30, 7, 1⟩ : MeterState) (some sample1000) 16).1.energy = 30 := by
  have h1 := (c2_energy_integration.1 ⟨0, 0, 1⟩ sample1000 6 (by norm_num)).1 (by norm_num)
  have h2 := (c2_energy_integration.2.2.2 ⟨30, 7, 1⟩ sample1000 16 (by norm_num)).1
  refine ⟨?_, h2⟩
  rw [h1.1]
  norm_num [sample1000]

/-! ## Claim C7 -/

/-- **C7**.  For every poll whose frame decode fails (any `FrameError`), the
per-meter read operation returns a reading with voltage, current, power,
frequency, and power factor all 0 whose energy, daily-energy and daily-cost
fields carry the meter's existing accumulated totals, and the meter state
(both accumulators and the last-sample timestamp) is left unchanged. -/
theorem c7_failure_preserves_totals :
    ∀ (st : MeterState) (response : List ℕ) (address : ℕ) (now : ℤ) (e : FrameError),
      read_response response address now = .error e →
      (poll_meter st response address now).1 = st ∧
      (poll_meter st response address now).2.voltage = 0 ∧
      (poll_meter st response address now).2.current = 0 ∧
      (poll_meter st response address now).2.power = 0 ∧
      (poll_meter st response address now).2.frequency = 0 ∧
      (poll_meter st response address now).2.power_factor = 0 ∧
      (poll_meter st response address now).2.energy = st.energy ∧
      (poll_meter st response address now).2.daily_energy = st.daily_energy ∧
      (poll_meter st response address now).2.daily_cost = st.daily_energy * ENERGY_RATE_GHS := by
  intro st response address now e he
  simp only [poll_meter, he, read_tenant_a]
  exact ⟨trivial, trivial, trivial, trivial, trivial, trivial, trivial, trivial, trivial⟩

/-- **C7** (witness): a concrete failed poll (empty response, rejected as
`Incomplete`) leaves the state untouched and carries the totals. -/
theorem c7_failure_preserves_totals_witness :
    (poll_meter ⟨3, 2, 50⟩ [] 1 0).1 = (⟨3, 2, 50⟩ : MeterState) ∧
    (poll_meter ⟨3, 2, 50⟩ [] 1 0).2.voltage = 0 ∧
    (poll_meter ⟨3, 2, 50⟩ [] 1 0).2.current = 0 ∧
    (poll_meter ⟨3, 2, 50⟩ [] 1 0).2.power = 0 ∧
    (poll_meter ⟨3, 2, 50⟩ [] 1 0).2.frequency = 0 ∧
    (poll_meter ⟨3, 2, 50⟩ [] 1 0).2.power_factor = 0 ∧
    (poll_meter ⟨3, 2, 50⟩ [] 1 0).2.energy = (⟨3, 2, 50⟩ : MeterState).energy ∧
    (poll_meter ⟨3, 2, 50⟩ [] 1 0).2.daily_energy = (⟨3, 2, 50⟩ : MeterState).daily_energy ∧
    (poll_meter ⟨3, 2, 50⟩ [] 1 0).2.daily_cost
      = (⟨3, 2, 50⟩ : MeterState).daily_energy * ENERGY_RATE_GHS :=
  c7_failure_preserves_totals ⟨3, 2, 50⟩ [] 1 0 .incomplete (by decide)


/-! ## Validator (src/main.py, `_validate_data`) -/

/-- The discriminated causes of the sanity checks in `_validate_data`, one
per early-return branch, in source order. -/
inductive ValidationReason where
  | voltageRange
  | currentRange
  | powerRange
  | frequencyRange
  | powerFactorRange
  | powerCrossCheck
  deriving DecidableEq

/-- Result of `_validate_data`: `(True, "Valid")` or `(False, reason)`. -/
inductive ValidationOutcome where
  | valid
  | invalid (reason : ValidationReason)
  deriving DecidableEq

/-- `PZEMTestMonitor._validate_data` applied to the reading dictionary (the
required-field presence checks always pass on the typed record). -/
def validate_data (d : EnrichedReading) : ValidationOutcome :=
  if d.voltage > 0 ∧ (d.voltage < 180 ∨ d.voltage > 280) then .invalid .voltageRange
  else if d.current < 0 ∨ d.current > 100 then .invalid .currentRange
  else if d.power < 0 ∨ d.power > 25000 then .invalid .powerRange
  else if d.frequency > 0 ∧ (d.frequency < 45 ∨ d.frequency > 65) then .invalid .frequencyRange
  else if d.power_factor < 0 ∨ d.power_factor > 1 then .invalid .powerFactorRange
  else if d.voltage > 10 ∧ d.current > 0.01 then
    let calculated_power := d.voltage * d.current * d.power_factor
    if |d.power - calculated_power| > calculated_power * 0.1 then .invalid .powerCrossCheck
    else .valid
  else .valid

/-- The voltage range check of `_validate_data`. -/
def voltage_bad (d : EnrichedReading) : Prop :=
  d.voltage > 0 ∧ (d.voltage < 180 ∨ d.voltage > 280)

/-- The current range check of `_validate_data`. -/
def current_bad (d : EnrichedReading) : Prop := d.current < 0 ∨ d.current > 100

/-- The power range check of `_validate_data`. -/
def power_bad (d : EnrichedReading) : Prop := d.power < 0 ∨ d.power > 25000

/-- The frequency range check of `_validate_data`. -/
def frequency_bad (d : EnrichedReading) : Prop :=
  d.frequency > 0 ∧ (d.frequency < 45 ∨ d.frequency > 65)

/-- The power factor range check of `_validate_data`. -/
def power_factor_bad (d : EnrichedReading) : Prop :=
  d.power_factor < 0 ∨ d.power_factor > 1

/-- The significant-load guard of the cross-validation in `_validate_data`. -/
def cross_check_applies (d : EnrichedReading) : Prop :=
  d.voltage > 10 ∧ d.current > 0.01

/-- The failing condition of the cross-validation `P ≈ V × I × PF`. -/
def cross_check_bad (d : EnrichedReading) : Prop :=
  |d.power - d.voltage * d.current * d.power_factor|
    > d.voltage * d.current * d.power_factor * 0.1

/-- The Valid reading of claim C6: voltage 230, current 5, power 1150,
power factor 1.0 (frequency 50, totals irrelevant to validation). -/
def c6Good : EnrichedReading :=
  { voltage := 230, current := 5, power := 1150, energy := 0, frequency := 50,
    power_factor := 1, timestamp := 0, daily_energy := 0, daily_cost := 0 }

/-! ## Claim C6 -/

/-- **C6**.  `validate` is a pure function of the reading that applies its
checks in the fixed priority order voltage, current, power, frequency,
power factor, cross-check, reporting the first failing reason; the
cross-check is evaluated only when voltage > 10 and current > 0.01; a
reading with voltage = 300 yields Invalid(VoltageRange), and the reading
with voltage = 230, current = 5, power = 1150, powerFactor = 1.0 yields
Valid. -/
theorem c6_validator_priority :
    (∀ d, validate_data d = .invalid .voltageRange ↔ voltage_bad d) ∧
    (∀ d, validate_data d = .invalid .currentRange ↔ ¬ voltage_bad d ∧ current_bad d) ∧
    (∀ d, validate_data d = .invalid .powerRange ↔
       ¬ voltage_bad d ∧ ¬ current_bad d ∧ power_bad d) ∧
    (∀ d, validate_data d = .invalid .frequencyRange ↔
       ¬ voltage_bad d ∧ ¬ current_bad d ∧ ¬ power_bad d ∧ frequency_bad d) ∧
    (∀ d, validate_data d = .invalid .powerFactorRange ↔
       ¬ voltage_bad d ∧ ¬ current_bad d ∧ ¬ power_bad d ∧ ¬ frequency_bad d ∧
       power_factor_bad d) ∧
    (∀ d, validate_data d = .invalid .powerCrossCheck ↔
       ¬ voltage_bad d ∧ ¬ current_bad d ∧ ¬ power_bad d ∧ ¬ frequency_bad d ∧
       ¬ power_factor_bad d ∧ cross_check_applies d ∧ cross_check_bad d) ∧
    (∀ d, d.voltage = 300 → validate_data d = .invalid .voltageRange) ∧
    validate_data c6Good = .valid := by
  have hchar : ∀ d : EnrichedReading,
      (validate_data d = .invalid .voltageRange ↔ voltage_bad d) ∧
      (validate_data d = .invalid .currentRange ↔ ¬ voltage_bad d ∧ current_bad d) ∧
      (validate_data d = .invalid .powerRange ↔
        ¬ voltage_bad d ∧ ¬ current_bad d ∧ power_bad d) ∧
      (validate_data d = .invalid .frequencyRange ↔
        ¬ voltage_bad d ∧ ¬ current_bad d ∧ ¬ power_bad d ∧ frequency_bad d) ∧
      (validate_data d = .invalid .powerFactorRange ↔
        ¬ voltage_bad d ∧ ¬ current_bad d ∧ ¬ power_bad d ∧ ¬ frequency_bad d ∧
        power_factor_bad d) ∧
      (validate_data d = .invalid .powerCrossCheck ↔
        ¬ voltage_bad d ∧ ¬ current_bad d ∧ ¬ power_bad d ∧ ¬ frequency_bad d ∧
        ¬ power_factor_bad d ∧ cross_check_applies d ∧ cross_check_bad d) := by
    intro d
    simp only [validate_data]
    unfold voltage_bad current_bad power_bad frequency_bad
      power_factor_bad cross_check_applies cross_check_bad
    split_ifs with h1 h2 h3 h4 h5 h6 h7 <;> simp_all
  refine ⟨fun d => (hchar d).1, fun d => (hchar d).2.1, fun d => (hchar d).2.2.1,
    fun d => (hchar d).2.2.2.1, fun d => (hchar d).2.2.2.2.1, fun d => (hchar d).2.2.2.2.2,
    ?_, ?_⟩
  · intro d hv
    apply ((hchar d).1).mpr
    unfold voltage_bad
    rw [hv]
    norm_num
  · norm_num [validate_data, c6Good]

/-- **C6** (witness): applying the voltage = 300 case of the priority
theorem to a concrete reading. -/
theorem c6_validator_priority_witness :
    validate_data { voltage := 300, current := 0, power := 0, energy := 0, frequency := 0,
                    power_factor := 0, timestamp := 0, daily_energy := 0, daily_cost := 0 }
      = .invalid .voltageRange :=
  c6_validator_priority.2.2.2.2.2.2.1
    { voltage := 300, current := 0, power := 0, energy := 0, frequency := 0,
      power_factor := 0, timestamp := 0, daily_energy := 0, daily_cost := 0 } rfl

/-! ## Scheduler and recovery (src/main.py) -/

/-- Classification of one poll in `_read_tenant_data`: `timeout` for a
`None` read result, `error` for an exception, `invalid` for a failed
validation, `success` otherwise. -/
inductive Outcome where
  | success
  | timeout
  | error
  | invalid
  deriving DecidableEq

/-- `self.max_consecutive_errors = 10`. -/
def max_consecutive_errors : ℕ := 10

/-- The `consecutive_errors[tenant]` update performed by
`_read_tenant_data` for each outcome. -/
def record_outcome (consecutive : ℕ) : Outcome → ℕ
  | .success => 0
  | .timeout => consecutive + 1
  | .error => consecutive + 1
  | .invalid => consecutive + 1

/-- `PZEMTestMonitor._should_restart_handler`. -/
def should_restart_handler (consecutive : ℕ) : Bool :=
  decide (consecutive ≥ max_consecutive_errors)

/-- The `for attempt in range(max_retries)` loop of
`PZEMTestMonitor._initialize_pzem`.  `oracle attempt` tells whether
constructing the handler and its connectivity test succeed on that attempt;
`fuel` is the number of remaining attempts.  A sleep of `retry_delay`
seconds happens only between attempts (`attempt < max_retries - 1`), and
the delay doubles each time.  Returns whether initialization succeeded and
the list of backoff delays slept. -/
def init_attempts (oracle : ℕ → Bool) : ℕ → ℕ → ℕ → Bool × List ℕ
  | 0, _, _ => (false, [])
  | fuel + 1, attempt, retry_delay =>
    if oracle attempt then (true, [])
    else if fuel = 0 then (false, [])
    else
      let rest := init_attempts oracle fuel (attempt + 1) (retry_delay * 2)
      (rest.1, retry_delay :: rest.2)

/-- `PZEMTestMonitor._initialize_pzem`: `max_retries = 3`, initial
`retry_delay = 2`.  On exhaustion of all attempts `self.running = False`. -/
def init_pzem (oracle : ℕ → Bool) : Bool × List ℕ :=
  init_attempts oracle 3 0 2

/-- The scheduler fields driving restart and termination: both meters'
`consecutive_errors` counters and the `running` flag. -/
structure SchedState where
  cons_a : ℕ
  cons_b : ℕ
  running : Bool
  deriving DecidableEq

/-- `PZEMTestMonitor._restart_pzem_handler`: closes both channels, resets
`consecutive_errors = {'a': 0, 'b': 0}` and reinitializes; the reinit sets
`running = False` exactly when all its attempts fail. -/
def restart_pzem_handler (s : SchedState) (oracle : ℕ → Bool) : SchedState × List ℕ :=
  let r := init_pzem oracle
  ({ cons_a := 0, cons_b := 0, running := s.running && r.1 }, r.2)

/-- The fault-handling skeleton of one reading block of `run`: nothing
happens when `running` is false (the `while self.running` loop has exited);
otherwise the restart check runs first, a failed restart breaks out of the
loop, and otherwise both meters are polled and their outcomes recorded. -/
def run_cycle (s : SchedState) (oracle : ℕ → Bool) (oa ob : Outcome) : SchedState :=
  if s.running = false then s
  else
    let s1 :=
      if should_restart_handler s.cons_a ∨ should_restart_handler s.cons_b then
        (restart_pzem_handler s oracle).1
      else s
    if s1.running = false then s1
    else { s1 with cons_a := record_outcome s1.cons_a oa,
                   cons_b := record_outcome s1.cons_b ob }

/-! ## Claim C3 -/

/-- **C3**.  Each Timeout, Error, or Invalid outcome increments the meter's
consecutive-failure counter and each Success resets it to 0; the restart
fires at a counter of 10 and not at 9; the restart resets both counters to
0 and reinitializes with up to 3 attempts whose backoff delays start at 2 s
and double (no delay when the first attempt succeeds, [2] when the second
does, [2, 4] when all three run); reinitialization succeeds exactly when
some of the three attempts succeeds; after a successful restart polling
resumes with both counters cleared, after an exhausted restart the state is
terminated (`running = false`), and a terminated state absorbs every
further cycle. -/
theorem c3_restart_recovery :
    (∀ c : ℕ, record_outcome c .timeout = c + 1 ∧ record_outcome c .error = c + 1 ∧
       record_outcome c .invalid = c + 1 ∧ record_outcome c .success = 0) ∧
    (should_restart_handler 10 = true ∧ should_restart_handler 9 = false) ∧
    (∀ oracle : ℕ → Bool,
       ((init_pzem oracle).1 = true ↔
          oracle 0 = true ∨ oracle 1 = true ∨ oracle 2 = true) ∧
       (oracle 0 = true → (init_pzem oracle).2 = []) ∧
       (oracle 0 = false → oracle 1 = true → (init_pzem oracle).2 = [2]) ∧
       (oracle 0 = false → oracle 1 = false → (init_pzem oracle).2 = [2, 4])) ∧
    (∀ (s : SchedState) (oracle : ℕ → Bool),
       (restart_pzem_handler s oracle).1.cons_a = 0 ∧
       (restart_pzem_handler s oracle).1.cons_b = 0 ∧
       ((init_pzem oracle).1 = true →
         (restart_pzem_handler s oracle).1.running = s.running) ∧
       ((init_pzem oracle).1 = false →
         (restart_pzem_handler s oracle).1.running = false)) ∧
    (∀ (s : SchedState) (oracle : ℕ → Bool) (oa ob : Outcome),
       s.running = true → 10 ≤ s.cons_a ∨ 10 ≤ s.cons_b →
       ((init_pzem oracle).1 = true →
          run_cycle s oracle oa ob
            = ⟨record_outcome 0 oa, record_outcome 0 ob, true⟩) ∧
       ((init_pzem oracle).1 = false → run_cycle s oracle oa ob = ⟨0, 0, false⟩)) ∧
    (∀ (s : SchedState) (oracle : ℕ → Bool) (oa ob : Outcome),
       s.running = true → s.cons_a ≤ 9 → s.cons_b ≤ 9 →
       run_cycle s oracle oa ob
         = ⟨record_outcome s.cons_a oa, record_outcome s.cons_b ob, true⟩) ∧
    (∀ (s : SchedState) (oracle : ℕ → Bool) (oa ob : Outcome),
       s.running = false → run_cycle s oracle oa ob = s) := by
  refine ⟨?_, ?_, ?_, ?_, ?_, ?_, ?_⟩
  · intro c
    exact ⟨rfl, rfl, rfl, rfl⟩
  · exact ⟨by decide, by decide⟩
  · intro oracle
    cases h0 : oracle 0 <;> cases h1 : oracle 1 <;> cases h2 : oracle 2 <;>
      simp [init_pzem, init_attempts, h0, h1, h2]
  · intro s oracle
    refine ⟨rfl, rfl, ?_, ?_⟩ <;>
      · intro h
        simp [restart_pzem_handler, h]
  · intro s oracle oa ob hrun htrig
    have hor : should_restart_handler s.cons_a = true ∨ should_restart_handler s.cons_b = true := by
      rcases htrig with h | h
      · left
        simp only [should_restart_handler, max_consecutive_errors, decide_eq_true_eq]
        omega
      · right
        simp only [should_restart_handler, max_consecutive_errors, decide_eq_true_eq]
        omega
    constructor <;>
      · intro hinit
        simp [run_cycle, hrun, hor, restart_pzem_handler, hinit]
  · intro s oracle oa ob hrun ha hb
    have hno : ¬ (should_restart_handler s.cons_a = true ∨ should_restart_handler s.cons_b = true) := by
      simp only [should_restart_handler, max_consecutive_errors, decide_eq_true_eq]
      omega
    simp [run_cycle, hrun, hno]
  · intro s oracle oa ob hrun
    simp [run_cycle, hrun]

/-- **C3** (witness): a triggered restart whose reinitialization fails on
all three attempts terminates the scheduler, obtained from
`c3_restart_recovery` at a concrete state and oracle. -/
theorem c3_restart_recovery_witness :
    run_cycle ⟨10, 0, true⟩ (fun _ => false) .timeout .timeout
      = (⟨0, 0, false⟩ : SchedState) ∧
    run_cycle ⟨10, 3, true⟩ (fun i => decide (i = 1)) .timeout .success
      = (⟨record_outcome 0 .timeout, record_outcome 0 .success, true⟩ : SchedState) ∧
    run_cycle ⟨9, 9, true⟩ (fun _ => false) .invalid .success
      = (⟨record_outcome 9 .invalid, record_outcome 9 .success, true⟩ : SchedState) := by
  refine ⟨?_, ?_, ?_⟩
  · exact (c3_restart_recovery.2.2.2.2.1 ⟨10, 0, true⟩ (fun _ => false) .timeout .timeout
      rfl (Or.inl (by norm_num))).2 (by decide)
  · exact (c3_restart_recovery.2.2.2.2.1 ⟨10, 3, true⟩ (fun i => decide (i = 1)) .timeout .success
      rfl (Or.inl (by norm_num))).1 (by decide)
  · exact c3_restart_recovery.2.2.2.2.2.1 ⟨9, 9, true⟩ (fun _ => false) .invalid .success
      rfl (by norm_num) (by norm_num)

/-! ## Daily rollover (src/main.py) -/

/-- `PZEMTestMonitor._should_reset_daily_counters`: `hour` and `minute` are
the local-time fields of `utime.localtime(current_time)`; the reset window
is 00:00-00:05 and a reset additionally requires more than 6 hours since
`self.last_daily_reset`. -/
def should_reset_daily_counters (hour minute : ℕ) (now last_daily_reset : ℤ) : Bool :=
  if hour = 0 ∧ minute < 5 then
    if now - last_daily_reset > 6 * 3600 then true else false
  else false

/-- The scheduler fields involved in the midnight rollover:
`self.last_daily_reset` plus both meters' daily accumulators. -/
structure DailyState where
  last_daily_reset : ℤ
  daily_a : ℚ
  daily_b : ℚ
  deriving DecidableEq

/-- The rollover block of one `run` iteration: when
`_should_reset_daily_counters()` holds, `pzem.reset_daily_counters()` zeroes
both daily accumulators and `last_daily_reset` becomes the current time.
The boolean reports whether the reset fired on this tick. -/
def daily_tick (s : DailyState) (now : ℤ) (hour minute : ℕ) : DailyState × Bool :=
  if should_reset_daily_counters hour minute now s.last_daily_reset then
    ({ last_daily_reset := now, daily_a := 0, daily_b := 0 }, true)
  else (s, false)

/-- A sequence of scheduler ticks, each given as (time, local hour, local
minute); returns the final state and the number of resets fired. -/
def run_ticks (s : DailyState) (ticks : List (ℤ × ℕ × ℕ)) : DailyState × ℕ :=
  ticks.foldl
    (fun acc t =>
      let r := daily_tick acc.1 t.1 t.2.1 t.2.2
      (r.1, acc.2 + if r.2 then 1 else 0))
    (s, 0)

theorem should_reset_daily_counters_iff (hour minute : ℕ) (now last : ℤ) :
    should_reset_daily_counters hour minute now last = true ↔
      hour = 0 ∧ minute < 5 ∧ now - last > 6 * 3600 := by
  unfold should_reset_daily_counters
  split_ifs with h1 h2 <;> simp_all

/-! ## Claim C5 -/

/-- **C5**.  The daily reset fires on a scheduler tick if and only if the
local hour is 0, the local minute is less than 5, and more than 6 hours
have elapsed since the last reset; consequently any 5 ticks all inside the
00:00-00:05 window and within the same 6-hour period reset the daily
accumulators of both meters exactly once. -/
theorem c5_daily_rollover :
    (∀ (hour minute : ℕ) (now last : ℤ),
       (daily_tick ⟨last, 0, 0⟩ now hour minute).2 = true ↔
         hour = 0 ∧ minute < 5 ∧ now - last > 6 * 3600) ∧
    (∀ (s : DailyState) (t1 t2 t3 t4 t5 : ℤ) (m1 m2 m3 m4 m5 : ℕ),
       m1 < 5 → m2 < 5 → m3 < 5 → m4 < 5 → m5 < 5 →
       t1 - s.last_daily_reset > 6 * 3600 →
       t2 - t1 ≤ 6 * 3600 → t3 - t1 ≤ 6 * 3600 → t4 - t1 ≤ 6 * 3600 → t5 - t1 ≤ 6 * 3600 →
       run_ticks s [(t1, 0, m1), (t2, 0, m2), (t3, 0, m3), (t4, 0, m4), (t5, 0, m5)]
         = (⟨t1, 0, 0⟩, 1)) := by
  constructor
  · intro hour minute now last
    unfold daily_tick
    split_ifs with h
    · simpa using (should_reset_daily_counters_iff hour minute now last).mp h
    · simp only [Bool.false_eq_true, false_iff]
      intro hc
      exact h ((should_reset_daily_counters_iff hour minute now last).mpr hc)
  · intro s t1 t2 t3 t4 t5 m1 m2 m3 m4 m5 hm1 hm2 hm3 hm4 hm5 h1 h2 h3 h4 h5
    have f1 : should_reset_daily_counters 0 m1 t1 s.last_daily_reset = true :=
      (should_reset_daily_counters_iff 0 m1 t1 s.last_daily_reset).mpr ⟨rfl, hm1, h1⟩
    have f2 : should_reset_daily_counters 0 m2 t2 t1 = false := by
      rw [← Bool.not_eq_true, should_reset_daily_counters_iff]
      push_neg
      intro _ _
      omega
    have f3 : should_reset_daily_counters 0 m3 t3 t1 = false := by
      rw [← Bool.not_eq_true, should_reset_daily_counters_iff]
      push_neg
      intro _ _
      omega
    have f4 : should_reset_daily_counters 0 m4 t4 t1 = false := by
      rw [← Bool.not_eq_true, should_reset_daily_counters_iff]
      push_neg
      intro _ _
      omega
    have f5 : should_reset_daily_counters 0 m5 t5 t1 = false := by
      rw [← Bool.not_eq_true, should_reset_daily_counters_iff]
      push_neg
      intro _ _
      omega
    simp [run_ticks, daily_tick, f1, f2, f3, f4, f5]

/-- **C5** (witness): five concrete ticks in the window, starting more than
6 hours after the previous reset, reset both daily accumulators exactly
once, obtained from `c5_daily_rollover`. -/
theorem c5_daily_rollover_witness :
    run_ticks ⟨0, 5, 7⟩
        [(30000, 0, 1), (30010, 0, 2), (30020, 0, 3), (30030, 0, 4), (30040, 0, 0)]
      = (⟨30000, 0, 0⟩, 1) :=
  c5_daily_rollover.2 ⟨0, 5, 7⟩ 30000 30010 30020 30030 30040 1 2 3 4 0
    (by norm_num) (by norm_num) (by norm_num) (by norm_num) (by norm_num)
    (by norm_num) (by norm_num) (by norm_num) (by norm_num) (by norm_num)

/-! ## Per-meter read with validation (src/main.py, `_read_tenant_data`) -/

/-- `PZEMTestMonitor._read_tenant_data` for one meter, given the decode
result of the poll: the metering update of `read_tenant_a` runs first and
its returned dictionary is then judged by `_validate_data`; a Valid reading
resets the consecutive counter, an Invalid one increments it.  (The
`data is None` and exception branches require a failure outside the decode
path and are not reachable from a decode result.) -/
def read_tenant_data (st : MeterState) (decoded : Option Reading) (now : ℤ)
    (consecutive : ℕ) : MeterState × EnrichedReading × ℕ × Outcome :=
  let r := read_tenant_a st decoded now
  match validate_data r.2 with
  | .valid => (r.1, r.2, 0, .success)
  | .invalid _ => (r.1, r.2, consecutive + 1, .invalid)

/-! ## Claim C9 -/

/-- **C9**.  For every cycle whose frame decodes successfully, energy
integration and the last-sample-time update happen inside the read
operation before the validator runs: when the validator classifies the
decoded reading Invalid, the resulting meter state is exactly the one
produced by the read operation — the last-sample time is `now` and, when
the integration guard held, the accumulators keep the integrated increment;
the Invalid outcome (recorded with an incremented consecutive counter) does
not roll the integration back. -/
theorem c9_integration_before_validation :
    ∀ (st : MeterState) (data : Reading) (now : ℤ) (consecutive : ℕ)
      (reason : ValidationReason),
      validate_data (read_tenant_a st (some data) now).2 = .invalid reason →
      (read_tenant_data st (some data) now consecutive).1
        = (read_tenant_a st (some data) now).1 ∧
      (read_tenant_data st (some data) now consecutive).2.2.2 = .invalid ∧
      (read_tenant_data st (some data) now consecutive).2.2.1 = consecutive + 1 ∧
      (read_tenant_data st (some data) now consecutive).1.last_reading = now ∧
      (st.last_reading > 0 → 0 < now - st.last_reading → now - st.last_reading ≤ 10 →
        (read_tenant_data st (some data) now consecutive).1.energy
          = st.energy + data.power * ((now - st.last_reading : ℤ) : ℚ) / 3600 / 1000 ∧
        (read_tenant_data st (some data) now consecutive).1.daily_energy
          = st.daily_energy + data.power * ((now - st.last_reading : ℤ) : ℚ) / 3600 / 1000) := by
  intro st data now consecutive reason hinv
  have hd : read_tenant_data st (some data) now consecutive
      = ((read_tenant_a st (some data) now).1, (read_tenant_a st (some data) now).2,
         consecutive + 1, .invalid) := by
    simp only [read_tenant_data, hinv]
  refine ⟨by rw [hd], by rw [hd], by rw [hd], ?_, ?_⟩
  · rw [hd]
    simp only [read_tenant_a]
  · intro hlast hpos hle
    rw [hd]
    simp only [read_tenant_a, if_pos hlast, if_pos (And.intro hpos hle)]
    exact ⟨trivial, trivial⟩

/-- A decoded reading that integrates but fails validation (power 30000 W
exceeds the 25 kW plausibility bound). -/
def overloadReading : Reading :=
  { voltage := 230, current := 5, power := 30000, energy := 0,
    frequency := 50, power_factor := 1, timestamp := 0 }

/-- **C9** (witness): a 5-second step with an implausible 30 kW reading is
classified Invalid yet the increment stays integrated, obtained from
`c9_integration_before_validation`. -/
theorem c9_integration_before_validation_witness :
    (read_tenant_data ⟨0, 0, 100⟩ (some overloadReading) 105 4).2.2.2 = Outcome.invalid ∧
    (read_tenant_data ⟨0, 0, 100⟩ (some overloadReading) 105 4).1.energy
      = (⟨0, 0, 100⟩ : MeterState).energy
        + overloadReading.power * (((105 : ℤ) - (⟨0, 0, 100⟩ : MeterState).last_reading : ℤ) : ℚ)
          / 3600 / 1000 := by
  have hinv : validate_data (read_tenant_a ⟨0, 0, 100⟩ (some overloadReading) 105).2
      = .invalid .powerRange := by
    norm_num [read_tenant_a, overloadReading, validate_data]
  have h := c9_integration_before_validation ⟨0, 0, 100⟩ overloadReading 105 4 .powerRange hinv
  exact ⟨h.2.1, (h.2.2.2.2 (by norm_num) (by norm_num) (by norm_num)).1⟩

/-! ## Operation sequences over one meter (claim C10) -/

/-- An operation touching one meter's state: a poll (with its decode
result and time) or the daily reset. -/
inductive MeterOp where
  | read (decoded : Option Reading) (now : ℤ)
  | resetDaily
  deriving DecidableEq

/-- The state transition of one operation. -/
def apply_op (st : MeterState) : MeterOp → MeterState
  | .read decoded now => (read_tenant_a st decoded now).1
  | .resetDaily => reset_daily_counters st

/-- The decoded power of a read operation is non-negative (readings come
from `read_response`, which scales a non-negative 32-bit raw value). -/
def op_power_nonneg : MeterOp → Prop
  | .read (some r) _ => 0 ≤ r.power
  | _ => True

theorem apply_op_accumulators_mono (st : MeterState) (op : MeterOp)
    (h : op_power_nonneg op) (hop : op ≠ .resetDaily) :
    st.energy ≤ (apply_op st op).energy ∧
    st.daily_energy ≤ (apply_op st op).daily_energy := by
  cases op with
  | resetDaily => exact absurd rfl hop
  | read decoded now =>
      cases decoded with
      | none => exact ⟨le_refl _, le_refl _⟩
      | some r =>
          have hr : 0 ≤ r.power := h
          simp only [apply_op, read_tenant_a]
          split_ifs with h1 h2
          · have hdpos : (0 : ℚ) ≤ ((now - st.last_reading : ℤ) : ℚ) := by
              have := h2.1
              exact_mod_cast le_of_lt this
            have hinc : (0 : ℚ) ≤ r.power * ((now - st.last_reading : ℤ) : ℚ) / 3600 / 1000 := by
              apply div_nonneg
              apply div_nonneg
              exact mul_nonneg hr hdpos
              all_goals norm_num
            constructor <;> simpa using hinc
          · exact ⟨le_refl _, le_refl _⟩
          · exact ⟨le_refl _, le_refl _⟩

theorem foldl_apply_op_energy_mono :
    ∀ (ops : List MeterOp) (st : MeterState), (∀ op ∈ ops, op_power_nonneg op) →
      st.energy ≤ (ops.foldl apply_op st).energy := by
  intro ops
  induction ops with
  | nil => intro st _; exact le_refl _
  | cons op rest ih =>
      intro st hops
      simp only [List.foldl_cons]
      refine le_trans ?_ (ih (apply_op st op) (fun o ho => hops o (by simp [ho])))
      by_cases hop : op = .resetDaily
      · subst hop
        exact le_refl _
      · exact (apply_op_accumulators_mono st op (hops op (by simp)) hop).1

/-! ## Claim C10 -/

/-- **C10**.  For every sequence of operations (successful reads, failed
reads, daily resets) with non-negative decoded power, the lifetime energy
accumulator is monotone non-decreasing; every reading decoded by
`read_response` has non-negative power; `reset_daily_counters` zeroes only
the daily accumulator, leaving the lifetime accumulator and the last-sample
timestamp unchanged; and no operation other than the daily reset ever
decreases the daily accumulator. -/
theorem c10_lifetime_monotone :
    (∀ (st : MeterState) (ops : List MeterOp), (∀ op ∈ ops, op_power_nonneg op) →
       st.energy ≤ (ops.foldl apply_op st).energy) ∧
    (∀ (response : List ℕ) (address : ℕ) (now : ℤ) (r : Reading),
       read_response response address now = .ok r → 0 ≤ r.power) ∧
    (∀ st : MeterState,
       (reset_daily_counters st).daily_energy = 0 ∧
       (reset_daily_counters st).energy = st.energy ∧
       (reset_daily_counters st).last_reading = st.last_reading) ∧
    (∀ (st : MeterState) (op : MeterOp), op_power_nonneg op → op ≠ .resetDaily →
       st.daily_energy ≤ (apply_op st op).daily_energy) := by
  refine ⟨fun st ops h => foldl_apply_op_energy_mono ops st h, ?_, ?_, ?_⟩
  · intro response address now r h
    simp only [read_response] at h
    split_ifs at h <;> cases h <;>
      exact div_nonneg (Nat.cast_nonneg _) (by norm_num)
  · intro st
    exact ⟨rfl, rfl, rfl⟩
  · intro st op h hop
    exact (apply_op_accumulators_mono st op h hop).2

/-- **C10** (witness): a concrete history (an integrating read, a daily
reset, a failed read) never decreases lifetime energy, obtained from
`c10_lifetime_monotone`. -/
theorem c10_lifetime_monotone_witness :
    (⟨1, 2, 1⟩ : MeterState).energy ≤
      (([MeterOp.read (some sample1000) 5, MeterOp.resetDaily, MeterOp.read none 7]).foldl
        apply_op ⟨1, 2, 1⟩).energy ∧
    0 ≤ c1Actual.power := by
  constructor
  · apply c10_lifetime_monotone.1 ⟨1, 2, 1⟩
    intro op hop
    simp only [List.mem_cons, List.not_mem_nil, or_false] at hop
    rcases hop with h | h | h
    · subst h
      norm_num [op_power_nonneg, sample1000]
    · subst h
      trivial
    · subst h
      trivial
  · exact c10_lifetime_monotone.2.1 c1Frame 0x01 0 c1Actual read_response_c1Frame

/-! ## Claim C4 -/

/-- **C4** (counterexample).  The claim states that a collected byte
sequence passing checks (1)-(4) is rejected with CrcMismatch if and only if
the trailing 2 bytes differ from `crc16` of bytes[0..23).  `c4LongFrame` is
a 26-byte collected sequence with correct address, function code, byte
count, and whose trailing 2 bytes equal the CRC16 of its first 23 bytes —
by the claim it should parse successfully — yet the code computes the CRC
over `response[:-2]`, i.e. the first 24 bytes here, and rejects the frame
with CrcMismatch. -/
theorem c4_counterexample :
    ¬ c4LongFrame.length < 25 ∧
    c4LongFrame.getD 0 0 = 0x01 ∧
    c4LongFrame.getD 1 0 = 0x04 ∧
    c4LongFrame.getD 2 0 = 20 ∧
    crc16_modbus (c4LongFrame.take 23)
      = c4LongFrame.getD (c4LongFrame.length - 2) 0 |||
        (c4LongFrame.getD (c4LongFrame.length - 1) 0 <<< 8) ∧
    read_response c4LongFrame 0x01 0 = ParseResult.error FrameError.crcMismatch := by
  refine ⟨by decide, by decide, by decide, by decide, by decide, by decide⟩

/-- **C4** (amended).  For every collected byte sequence and expected
address, `parseReadResponse` rejects the frame if and only if one of these
holds, checked in exactly this order: (1) fewer than 25 bytes were
collected (Incomplete); (2) byte 0 differs from the expected address
(AddressMismatch); (3) byte 1 is 0x84 (DeviceException with code = byte 2)
or otherwise differs from 0x04 (FunctionMismatch); (4) byte 2 differs from
20 (LengthMismatch); (5) the trailing 2 bytes differ from crc16 of all
collected bytes except those trailing 2 — which is bytes[0..23) exactly
when 25 bytes were collected (CrcMismatch); otherwise it succeeds and
produces a Reading. -/
theorem c4_parse_rejection_order :
    ∀ (response : List ℕ) (address : ℕ) (now : ℤ),
      (read_response response address now = .error .incomplete ↔
         response.length < 25) ∧
      (read_response response address now = .error .addressMismatch ↔
         ¬ response.length < 25 ∧ response.getD 0 0 ≠ address) ∧
      (∀ code, read_response response address now = .error (.deviceException code) ↔
         ¬ response.length < 25 ∧ response.getD 0 0 = address ∧
         response.getD 1 0 = 0x84 ∧ code = response.getD 2 0) ∧
      (read_response response address now = .error .functionMismatch ↔
         ¬ response.length < 25 ∧ response.getD 0 0 = address ∧
         response.getD 1 0 ≠ 0x04 ∧ response.getD 1 0 ≠ 0x84) ∧
      (read_response response address now = .error .lengthMismatch ↔
         ¬ response.length < 25 ∧ response.getD 0 0 = address ∧
         response.getD 1 0 = 0x04 ∧ response.getD 2 0 ≠ 20) ∧
      (read_response response address now = .error .crcMismatch ↔
         ¬ response.length < 25 ∧ response.getD 0 0 = address ∧
         response.getD 1 0 = 0x04 ∧ response.getD 2 0 = 20 ∧
         crc16_modbus (response.take (response.length - 2)) ≠
           response.getD (response.length - 2) 0 |||
             (response.getD (response.length - 1) 0 <<< 8)) ∧
      ((∃ r, read_response response address now = .ok r) ↔
         ¬ response.length < 25 ∧ response.getD 0 0 = address ∧
         response.getD 1 0 = 0x04 ∧ response.getD 2 0 = 20 ∧
         crc16_modbus (response.take (response.length - 2)) =
           response.getD (response.length - 2) 0 |||
             (response.getD (response.length - 1) 0 <<< 8)) := by
  intro response address now
  simp only [read_response]
  split_ifs with h1 h2 h3 h4 h5 h6 <;>
    refine ⟨?_, ?_, ?_, ?_, ?_, ?_, ?_⟩ <;> simp_all
  exact fun code => eq_comm
